import Mathlib

/- Verification of SmartCart-Web (app/streamlit_app.py, app/ui_components.py).
   The UI-side functions are embedded directly from the source. The engine
   components (order co-occurrence builder, cart normalizer, recommendation
   scorer, batch evaluator) live in modules data_loader.py and recommender.py
   that are not part of the available sources; those are modelled from the
   spec, as indicated on each definition. -/

namespace SmartCart

/-- Item names are plain strings, case-preserved (spec section 3). -/
abbrev Item := String

/-- An order is the cleaned ordered list of item names of one raw record. -/
abbrev Order := List Item

/-- The sparse affinity matrix: entries keyed by ordered item pairs. -/
abbrev CoMatrix := List ((Item × Item) × ℚ)

/-- The item to category table (a Python dict, embedded as an assoc list). -/
abbrev TypeTable := List (Item × String)

/-- Per category popularity ranking: category to (item, frequency) list. -/
abbrev TopByType := List (String × List (Item × Nat))

/-- The item attribute table (unused by the scoring paths verified here). -/
abbrev FeatTable := List (Item × List String)

/-- ASCII uppercase to lowercase table, embedding the effect of Python
    str.lower on the ASCII names this app works with. -/
def upperLowerTable : List (Char × Char) :=
  [('A', 'a'), ('B', 'b'), ('C', 'c'), ('D', 'd'), ('E', 'e'), ('F', 'f'),
   ('G', 'g'), ('H', 'h'), ('I', 'i'), ('J', 'j'), ('K', 'k'), ('L', 'l'),
   ('M', 'm'), ('N', 'n'), ('O', 'o'), ('P', 'p'), ('Q', 'q'), ('R', 'r'),
   ('S', 's'), ('T', 't'), ('U', 'u'), ('V', 'v'), ('W', 'w'), ('X', 'x'),
   ('Y', 'y'), ('Z', 'z')]

/-- Lowercase one character (identity outside ASCII uppercase). -/
def lowerChar (c : Char) : Char := (List.lookup c upperLowerTable).getD c

/-- Embedding of Python str.lower restricted to ASCII letters. -/
def strLower (s : String) : String := String.mk (s.data.map lowerChar)

/-- Bool test that the first list is a prefix of the second. -/
def isPrefixSub : List Char → List Char → Bool
  | [], _ => true
  | _ :: _, [] => false
  | c :: cs, d :: ds => c == d && isPrefixSub cs ds

/-- Bool test that tok occurs as a contiguous run inside the second list. -/
def containsSubChars (tok : List Char) : List Char → Bool
  | [] => tok.isEmpty
  | c :: cs => isPrefixSub tok (c :: cs) || containsSubChars tok cs

/-- Embedding of the Python membership test (tok in s) on strings. -/
def containsSub (s tok : String) : Bool := containsSubChars tok.data s.data

/-- The keyword dispatch chain of icon_for_item, applied to the already
    lowercased name (ui_components.py lines 11-25). -/
def iconCore (n : String) : String :=
  if containsSub n "wing" then "🍗"
  else if containsSub n "fries" || containsSub n "fry" then "🍟"
  else if containsSub n "dip" || containsSub n "sauce" || containsSub n "ranch" then "🥣"
  else if containsSub n "burger" || containsSub n "sandwich" then "🍔"
  else if containsSub n "corn" then "🌽"
  else if containsSub n "drink" || containsSub n "cola" || containsSub n "juice" then "🥤"
  else "🍽️"

/-- Embedding of icon_for_item from ui_components.py: lowercase the name,
    then run the keyword priority chain. -/
def icon_for_item (name : String) : String := iconCore (strLower name)

/-- The visible content of one badge emitted by topbar_badges. -/
def badgeMarkup (it : String) : String := icon_for_item it ++ " " ++ it

/-- Embedding of topbar_badges from ui_components.py lines 30-37: the
    emitted markdown calls, as a list of strings.  shown = items[:limit];
    nothing at all is emitted when shown is empty, otherwise an opening
    div, one badge per shown item in order, and a closing div. -/
def topbar_badges (items : List String) (limit : Nat) : List String :=
  if (items.take limit).isEmpty then []
  else "<div>" :: ((items.take limit).map badgeMarkup ++ ["</div>"])

/-- Number of columns created by st.columns(3) in menu_reco_page
    (streamlit_app.py line 221); reco_card for rank idx is rendered
    inside cols[idx - 1]. -/
def recoColumns : Nat := 3

/-- Embedding of the cart cap in menu_reco_page (streamlit_app.py
    lines 204-206): if more than 3 items are selected only the first 3
    are kept before anything downstream runs. -/
def capSelection (selected : List String) : List String :=
  if 3 < selected.length then selected.take 3 else selected

/-- Modelled from the spec: sampling in the Co-occurrence Builder
    (section 4.3 step 1 and section 9) is order-count bounded and
    deterministic; the exact strategy is an open question in the spec, so
    it is modelled as the deterministic first-N draw. -/
def sampleOrders (orders : List Order) (sample_n : Option Nat) : List Order :=
  match sample_n with
  | none => orders
  | some n => orders.take n

/-- Modelled from the spec: raw pair count of the Co-occurrence Builder
    (section 4.3 step 2) — the number of orders in which the two items
    appear together. -/
def rawCount (orders : List Order) (a b : Item) : Nat :=
  (orders.filter (fun o => o.contains a && o.contains b)).length

/-- Modelled from the spec: per-item total occurrence count of the
    Co-occurrence Builder (section 4.3 step 2). -/
def totalOccurrence (orders : List Order) (a : Item) : Nat :=
  (orders.filter (fun o => o.contains a)).length

/-- Modelled from the spec: normalization of section 4.3 step 3,
    affinity(A,B) = rawCount(A,B) / totalOccurrence(A), over the rationals
    (the spec prescribes 64-bit floats; the exact arithmetic is modelled
    exactly over ℚ). -/
def affinity (orders : List Order) (a b : Item) : ℚ :=
  (rawCount orders a b : ℚ) / (totalOccurrence orders a : ℚ)

/-- The distinct items observed across a collection of orders. -/
def catalogOf (orders : List Order) : List Item := orders.flatten.dedup

/-- Modelled from the spec: build_normalized_comatrix of data_loader.py
    (absent from the sources), per section 4.3 — sample, count, normalize;
    only observed pairs of distinct items are materialized (step 4). -/
def build_normalized_comatrix (orders : List Order) (sample_n : Option Nat) : CoMatrix :=
  (catalogOf (sampleOrders orders sample_n)).flatMap (fun a =>
    (catalogOf (sampleOrders orders sample_n)).filterMap (fun b =>
      if a ≠ b ∧ 0 < rawCount (sampleOrders orders sample_n) a b then
        some ((a, b), affinity (sampleOrders orders sample_n) a b)
      else none))

/-- Look an ordered pair up in the sparse matrix. -/
def lookupAffinity (m : CoMatrix) (a b : Item) : Option ℚ :=
  (m.find? (fun e => e.1.1 == a && e.1.2 == b)).map (fun e => e.2)

/-- Modelled from the spec: normalize_user_items of recommender.py (absent
    from the sources), per section 4.4 — case-insensitive match of each
    user string against the catalog lookup table, silently dropping
    entries with no match; deduplicated (section 3, Cart); the length cap
    is the callers responsibility, not this components. -/
def normalize_user_items (selected : List String) (known_items_lower : List String)
    (lower_to_orig : List (String × String)) : List Item :=
  (((selected.map strLower).filter (fun s => known_items_lower.contains s)).filterMap
    (fun s => List.lookup s lower_to_orig)).dedup

/-- Modelled from the spec: the static exclusion list of section 4.5
    step 2 (a configured table, contents unspecified by the spec). -/
def BLACKLIST : List Item := []

/-- Modelled from the spec: the fixed positive category-diversity bias
    increment of section 4.5 step 3 (a tunable constant). -/
def biasIncrement : ℚ := 1/2

/-- Read of the sparse matrix used by scoring: unmaterialized pairs have
    affinity 0 (section 4.3 step 4). -/
def matLookup (co : CoMatrix) (a b : Item) : ℚ := (lookupAffinity co a b).getD 0

/-- Category of an item, defaulting to other (section 4.2). -/
def lookupCat (item_type : TypeTable) (i : Item) : String :=
  (List.lookup i item_type).getD "other"

/-- Popularity (frequency) of an item inside its category ranking. -/
def popularityOf (top_by_type : TopByType) (cat : String) (i : Item) : Nat :=
  (List.lookup i ((List.lookup cat top_by_type).getD [])).getD 0

/-- Modelled from the spec: base score of section 4.5 step 1 — the sum
    over cart items of affinity(cartItem, candidate). -/
def baseScore (co : CoMatrix) (cart : List Item) (c : Item) : ℚ :=
  (cart.map (fun a => matLookup co a c)).sum

/-- Modelled from the spec: final candidate score — base score plus the
    soft category bias of section 4.5 step 3 when the candidates category
    is absent from the cart. -/
def candidateScore (co : CoMatrix) (item_type : TypeTable) (cart : List Item) (c : Item) : ℚ :=
  baseScore co cart c +
    (if (cart.map (fun i => lookupCat item_type i)).contains (lookupCat item_type c) then 0
     else biasIncrement)

/-- Modelled from the spec: the selection order of section 4.5 step 5 —
    descending final score, ties by descending popularity, remaining ties
    by list position (stability of the insertion sort below). -/
def recBefore (item_type : TypeTable) (top_by_type : TopByType) (x y : Item × ℚ) : Bool :=
  decide (y.2 < x.2) ||
    (decide (x.2 = y.2) &&
      decide (popularityOf top_by_type (lookupCat item_type y.1) y.1 ≤
        popularityOf top_by_type (lookupCat item_type x.1) x.1))

/-- Insert into a list sorted by the given priority test (stable). -/
def insertRanked {α : Type} (le : α → α → Bool) (x : α) : List α → List α
  | [] => [x]
  | y :: ys => if le x y then x :: y :: ys else y :: insertRanked le x ys

/-- Stable insertion sort by the given priority test. -/
def sortRanked {α : Type} (le : α → α → Bool) : List α → List α
  | [] => []
  | x :: xs => insertRanked le x (sortRanked le xs)

/-- Modelled from the spec: candidate generation and scoring, section 4.5
    steps 1-3 — every catalog item not in the cart and not blacklisted,
    paired with its final score. -/
def scoredCandidates (cart : List Item) (co : CoMatrix) (item_type : TypeTable) :
    List (Item × ℚ) :=
  ((item_type.map Prod.fst).dedup.filter
      (fun c => !(cart.contains c) && !(BLACKLIST.contains c))).map
    (fun c => (c, candidateScore co item_type cart c))

/-- Modelled from the spec: section 4.5 step 5 — positive-score candidates
    sorted by the selection order, top 3 taken. -/
def pickedTop (cart : List Item) (co : CoMatrix) (item_type : TypeTable)
    (top_by_type : TopByType) : List (Item × ℚ) :=
  (sortRanked (recBefore item_type top_by_type)
    ((scoredCandidates cart co item_type).filter (fun p => decide (0 < p.2)))).take 3

/-- Modelled from the spec: the fallback of section 4.5 step 4 — fill the
    remaining slots from the per-category rankings of categories not yet
    represented, excluding cart, blacklist and already picked items. -/
def fallbackFill (cart picked : List Item) (item_type : TypeTable)
    (top_by_type : TopByType) : List Item :=
  ((((top_by_type.filter
        (fun p => !((picked.map (fun i => lookupCat item_type i)).contains p.1))).flatMap
      (fun p => p.2.map Prod.fst)).filter
    (fun i => !(cart.contains i) && !(picked.contains i) && !(BLACKLIST.contains i))).dedup).take
    (3 - picked.length)

/-- Modelled from the spec: enhanced_recommend of recommender.py (absent
    from the sources), per section 4.5.  An empty cart yields an empty
    list (section 8); otherwise up to 3 scored picks plus fallback fill,
    fallback entries carrying score 0.  Total function: never raises. -/
def enhanced_recommend (cart : List Item) (co_norm : CoMatrix) (item_type : TypeTable)
    (top_by_type : TopByType) (item_feat : FeatTable) : List (Item × ℚ) :=
  if cart.isEmpty then []
  else
    pickedTop cart co_norm item_type top_by_type ++
      (fallbackFill cart ((pickedTop cart co_norm item_type top_by_type).map Prod.fst)
        item_type top_by_type).map (fun i => (i, (0 : ℚ)))

/-- Embedding of the rank assignment in menu_reco_page (streamlit_app.py
    line 223): enumerate(recs, start=1). -/
def assignRanks {α : Type} (recs : List α) : List (Nat × α) :=
  recs.enum.map (fun p => (p.1 + 1, p.2))

/-- The interactive flow of menu_reco_page (streamlit_app.py lines
    204-213): the capped selection is what reaches the Cart Normalizer. -/
def menuFlowCart (selected : List String) (kil : List String)
    (lto : List (String × String)) : List Item :=
  normalize_user_items (capSelection selected) kil lto

/-- One labeled row of the batch test table (section 4.6). -/
structure BatchRow where
  cart : List String
  truth : List Item

/-- One per-row entry of the batch output table (section 4.6). -/
structure RowOutput where
  cart : List Item
  recs : List (Item × ℚ)
  hits : List Bool

/-- Modelled from the spec: evaluation of a single labeled row by the
    Batch Evaluator (section 4.6) — normalize the cart, score it, and
    record for each ground-truth item whether it is among the
    recommendations. -/
def evalRow (co : CoMatrix) (item_type : TypeTable) (top_by_type : TopByType)
    (item_feat : FeatTable) (kil : List String) (lto : List (String × String))
    (row : BatchRow) : RowOutput :=
  { cart := normalize_user_items row.cart kil lto
    recs := enhanced_recommend (normalize_user_items row.cart kil lto) co item_type
      top_by_type item_feat
    hits := row.truth.map (fun g =>
      ((enhanced_recommend (normalize_user_items row.cart kil lto) co item_type
        top_by_type item_feat).map Prod.fst).contains g) }

/-- Modelled from the spec: the recall credit one row contributes to the
    aggregate metrics — the fraction of its ground-truth items recovered
    in the top 3; zero for a row with no recoverable signal. -/
def rowCredit (r : RowOutput) : ℚ :=
  if r.hits.length = 0 then 0 else ((r.hits.count true : ℚ) / (r.hits.length : ℚ))

/-- Modelled from the spec: batch_predict of recommender.py (absent from
    the sources), per section 4.6 — every row of the test table is
    processed and yields one output row; no row aborts the batch. -/
def batch_predict (rows : List BatchRow) (co : CoMatrix) (item_type : TypeTable)
    (top_by_type : TopByType) (item_feat : FeatTable) (kil : List String)
    (lto : List (String × String)) : List RowOutput :=
  rows.map (evalRow co item_type top_by_type item_feat kil lto)

/-- Modelled from the spec: aggregate Recall@3 — per-row credits averaged
    across the batch (section 4.6). -/
def recallAt3 (outs : List RowOutput) : ℚ :=
  if outs.length = 0 then 0 else ((outs.map rowCredit).sum / (outs.length : ℚ))

/-- The order set of the worked scenario in spec section 8. -/
def demoOrders : List Order :=
  [["Wings", "Fries"], ["Wings", "Ranch"], ["Wings", "Fries", "Ranch"]]

/-- The sampled order set of the scenario (sample bound 3). -/
def demoSample : List Order := sampleOrders demoOrders (some 3)

/-- A small concrete category table for witnesses. -/
def demoItemType : TypeTable := [("Wings", "main"), ("Fries", "side"), ("Ranch", "dip")]

/-- A small concrete per-category ranking for witnesses. -/
def demoTop : TopByType :=
  [("main", [("Wings", 3)]), ("side", [("Fries", 2)]), ("dip", [("Ranch", 2)])]

/-- An empty attribute table for witnesses. -/
def demoFeat : FeatTable := []

/-- Lowercased catalog names for witnesses. -/
def demoKil : List String := ["wings", "fries", "ranch"]

/-- Lowercase-to-original lookup for witnesses. -/
def demoLto : List (String × String) :=
  [("wings", "Wings"), ("fries", "Fries"), ("ranch", "Ranch")]

/-- The affinity matrix of the scenario. -/
def demoCo : CoMatrix := build_normalized_comatrix demoOrders (some 3)

theorem contains_false_not_mem {α : Type} [BEq α] [LawfulBEq α] {l : List α} {a : α}
    (h : l.contains a = false) : a ∉ l := by
  intro hm
  have h2 : List.elem a l = true := List.elem_iff.mpr hm
  have h3 : List.elem a l = false := h
  rw [h2] at h3
  cases h3

theorem rawCount_le_totalOccurrence (orders : List Order) (a b : Item) :
    rawCount orders a b ≤ totalOccurrence orders a := by
  unfold rawCount totalOccurrence
  refine (List.monotone_filter_right orders ?_).length_le
  intro o ho
  rw [Bool.and_eq_true] at ho
  exact ho.1

theorem affinity_nonneg (orders : List Order) (a b : Item) : 0 ≤ affinity orders a b := by
  unfold affinity
  exact div_nonneg (Nat.cast_nonneg _) (Nat.cast_nonneg _)

theorem affinity_le_one (orders : List Order) (a b : Item) : affinity orders a b ≤ 1 := by
  unfold affinity
  rcases Nat.eq_zero_or_pos (totalOccurrence orders a) with h | h
  · have hr : rawCount orders a b = 0 :=
      Nat.le_zero.mp (h ▸ rawCount_le_totalOccurrence orders a b)
    rw [hr, h]
    norm_num
  · rw [div_le_one (by exact_mod_cast h)]
    exact_mod_cast rawCount_le_totalOccurrence orders a b

theorem mem_build {orders : List Order} {sn : Option Nat} {a b : Item} {q : ℚ}
    (h : ((a, b), q) ∈ build_normalized_comatrix orders sn) :
    a ≠ b ∧ 0 < rawCount (sampleOrders orders sn) a b ∧
      q = affinity (sampleOrders orders sn) a b := by
  unfold build_normalized_comatrix at h
  rw [List.mem_flatMap] at h
  obtain ⟨a', _, h⟩ := h
  rw [List.mem_filterMap] at h
  obtain ⟨b', _, hif⟩ := h
  by_cases hc : a' ≠ b' ∧ 0 < rawCount (sampleOrders orders sn) a' b'
  · rw [if_pos hc] at hif
    injection hif with hif
    obtain ⟨hpair, hq⟩ := Prod.mk.injEq .. ▸ hif
    obtain ⟨ha, hb⟩ := Prod.mk.injEq .. ▸ hpair
    subst ha
    subst hb
    exact ⟨hc.1, hc.2, hq.symm⟩
  · rw [if_neg hc] at hif
    cases hif

theorem mem_insertRanked {α : Type} {le : α → α → Bool} {x a : α} {l : List α} :
    a ∈ insertRanked le x l ↔ a = x ∨ a ∈ l := by
  induction l with
  | nil => simp [insertRanked]
  | cons y ys ih =>
    simp only [insertRanked]
    split
    · simp [List.mem_cons]
    · rw [List.mem_cons, ih, List.mem_cons]
      tauto

theorem mem_sortRanked {α : Type} {le : α → α → Bool} {a : α} {l : List α} :
    a ∈ sortRanked le l ↔ a ∈ l := by
  induction l with
  | nil => simp [sortRanked]
  | cons y ys ih => simp [sortRanked, mem_insertRanked, ih]

theorem scoredCandidates_not_mem_cart {cart : List Item} {co : CoMatrix}
    {item_type : TypeTable} {p : Item × ℚ} (h : p ∈ scoredCandidates cart co item_type) :
    p.1 ∉ cart := by
  unfold scoredCandidates at h
  rw [List.mem_map] at h
  obtain ⟨c, hc, rfl⟩ := h
  rw [List.mem_filter] at hc
  have hcond := hc.2
  rw [Bool.and_eq_true] at hcond
  have h1 : cart.contains c = false := by
    have := hcond.1
    rwa [Bool.not_eq_true'] at this
  exact contains_false_not_mem h1

theorem mem_pickedTop {cart : List Item} {co : CoMatrix} {item_type : TypeTable}
    {top_by_type : TopByType} {p : Item × ℚ}
    (h : p ∈ pickedTop cart co item_type top_by_type) :
    p ∈ scoredCandidates cart co item_type := by
  unfold pickedTop at h
  have h1 := List.mem_of_mem_take h
  rw [mem_sortRanked] at h1
  exact (List.mem_filter.mp h1).1

theorem fallbackFill_not_mem_cart {cart picked : List Item} {item_type : TypeTable}
    {top_by_type : TopByType} {i : Item}
    (h : i ∈ fallbackFill cart picked item_type top_by_type) : i ∉ cart := by
  unfold fallbackFill at h
  have h1 := List.mem_of_mem_take h
  rw [List.mem_dedup, List.mem_filter] at h1
  have hcond := h1.2
  rw [Bool.and_eq_true, Bool.and_eq_true] at hcond
  have h2 : cart.contains i = false := by
    have := hcond.1.1
    rwa [Bool.not_eq_true'] at this
  exact contains_false_not_mem h2

theorem pickedTop_length_le (cart : List Item) (co : CoMatrix) (item_type : TypeTable)
    (top_by_type : TopByType) : (pickedTop cart co item_type top_by_type).length ≤ 3 := by
  unfold pickedTop
  rw [List.length_take]
  exact min_le_left _ _

theorem fallbackFill_length_le (cart picked : List Item) (item_type : TypeTable)
    (top_by_type : TopByType) :
    (fallbackFill cart picked item_type top_by_type).length ≤ 3 - picked.length := by
  unfold fallbackFill
  rw [List.length_take]
  exact min_le_left _ _

theorem enhanced_recommend_length_le (cart : List Item) (co : CoMatrix)
    (item_type : TypeTable) (top_by_type : TopByType) (item_feat : FeatTable) :
    (enhanced_recommend cart co item_type top_by_type item_feat).length ≤ 3 := by
  unfold enhanced_recommend
  split
  · simp
  · rw [List.length_append, List.length_map]
    have h1 := pickedTop_length_le cart co item_type top_by_type
    have h2 := fallbackFill_length_le cart
      ((pickedTop cart co item_type top_by_type).map Prod.fst) item_type top_by_type
    rw [List.length_map] at h2
    omega

theorem enhanced_recommend_not_mem_cart (cart : List Item) (co : CoMatrix)
    (item_type : TypeTable) (top_by_type : TopByType) (item_feat : FeatTable) :
    ∀ p ∈ enhanced_recommend cart co item_type top_by_type item_feat, p.1 ∉ cart := by
  intro p hp
  unfold enhanced_recommend at hp
  split at hp
  · cases hp
  · rw [List.mem_append] at hp
    rcases hp with hp | hp
    · exact scoredCandidates_not_mem_cart (mem_pickedTop hp)
    · rw [List.mem_map] at hp
      obtain ⟨i, hi, rfl⟩ := hp
      exact fallbackFill_not_mem_cart hi

theorem assignRanks_fst {α : Type} (recs : List α) :
    (assignRanks recs).map Prod.fst = List.range' 1 recs.length := by
  unfold assignRanks
  rw [List.map_map, List.range'_eq_map_range]
  have h1 : (Prod.fst ∘ fun p : Nat × α => (p.1 + 1, p.2)) =
      ((fun x => 1 + x) ∘ Prod.fst) := by
    funext p
    simp [Nat.add_comm]
  rw [h1, ← List.map_map, List.enum_map_fst]

theorem lookup_mem_values {α β : Type} [BEq α] {l : List (α × β)} {a : α} {b : β}
    (h : List.lookup a l = some b) : b ∈ l.map Prod.snd := by
  induction l with
  | nil => cases h
  | cons p t ih =>
    obtain ⟨k, v⟩ := p
    simp only [List.lookup] at h
    split at h
    · injection h with h
      subst h
      simp
    · simp [ih h]

theorem lowerChar_idem (c : Char) : lowerChar (lowerChar c) = lowerChar c := by
  unfold lowerChar
  cases h : List.lookup c upperLowerTable with
  | none => simp [h]
  | some v =>
    have hv : v ∈ upperLowerTable.map Prod.snd := lookup_mem_values h
    have hnone : ∀ w ∈ upperLowerTable.map Prod.snd,
        List.lookup w upperLowerTable = none := by decide
    simp [h, hnone v hv]

theorem strLower_idem (s : String) : strLower (strLower s) = strLower s := by
  show String.mk ((s.data.map lowerChar).map lowerChar) = String.mk (s.data.map lowerChar)
  rw [List.map_map]
  congr 1
  apply List.map_congr_left
  intro c _
  exact lowerChar_idem c

theorem demo_lookup_WF : lookupAffinity demoCo "Wings" "Fries" =
    some (affinity demoSample "Wings" "Fries") := rfl

theorem demo_lookup_WR : lookupAffinity demoCo "Wings" "Ranch" =
    some (affinity demoSample "Wings" "Ranch") := rfl

theorem demo_lookup_FW : lookupAffinity demoCo "Fries" "Wings" =
    some (affinity demoSample "Fries" "Wings") := rfl

theorem demo_raw_WF : rawCount demoSample "Wings" "Fries" = 2 := by decide

theorem demo_raw_WR : rawCount demoSample "Wings" "Ranch" = 2 := by decide

theorem demo_raw_FW : rawCount demoSample "Fries" "Wings" = 2 := by decide

theorem demo_total_W : totalOccurrence demoSample "Wings" = 3 := by decide

theorem demo_total_F : totalOccurrence demoSample "Fries" = 2 := by decide

theorem demo_aff_WF : affinity demoSample "Wings" "Fries" = 2/3 := by
  unfold affinity
  rw [demo_raw_WF, demo_total_W]
  norm_num

theorem demo_aff_WR : affinity demoSample "Wings" "Ranch" = 2/3 := by
  unfold affinity
  rw [demo_raw_WR, demo_total_W]
  norm_num

theorem demo_aff_FW : affinity demoSample "Fries" "Wings" = 1 := by
  unfold affinity
  rw [demo_raw_FW, demo_total_F]
  norm_num

theorem demo_entry_mem_WF :
    (("Wings", "Fries"), affinity (sampleOrders demoOrders (some 3)) "Wings" "Fries") ∈
      build_normalized_comatrix demoOrders (some 3) := by
  have hf : List.find? (fun e => e.1.1 == "Wings" && e.1.2 == "Fries")
      (build_normalized_comatrix demoOrders (some 3)) =
      some (("Wings", "Fries"),
        affinity (sampleOrders demoOrders (some 3)) "Wings" "Fries") := rfl
  exact List.mem_of_find?_eq_some hf

/-- C1: every entry of the matrix produced by the Co-occurrence Builder
    carries the value rawCount(A,B) / totalOccurrence(A), the fraction of
    the appearances of A that co-occur with B; on the scenario order set
    with sample bound 3, affinity(Wings,Fries) = 2/3,
    affinity(Wings,Ranch) = 2/3 and affinity(Fries,Wings) = 1. -/
theorem claim_C1 :
    (∀ (orders : List Order) (sn : Option Nat) (a b : Item) (q : ℚ),
      ((a, b), q) ∈ build_normalized_comatrix orders sn →
      q = (rawCount (sampleOrders orders sn) a b : ℚ) /
          (totalOccurrence (sampleOrders orders sn) a : ℚ)) ∧
    lookupAffinity demoCo "Wings" "Fries" = some (2/3) ∧
    lookupAffinity demoCo "Wings" "Ranch" = some (2/3) ∧
    lookupAffinity demoCo "Fries" "Wings" = some 1 := by
  refine ⟨?_, ?_, ?_, ?_⟩
  · intro orders sn a b q h
    exact (mem_build h).2.2
  · rw [demo_lookup_WF, demo_aff_WF]
  · rw [demo_lookup_WR, demo_aff_WR]
  · rw [demo_lookup_FW, demo_aff_FW]

/-- Witness for C1: the membership hypothesis of the general conjunct is
    discharged at the concrete scenario entry (Wings, Fries). -/
theorem claim_C1_witness :
    affinity demoSample "Wings" "Fries" =
      (rawCount (sampleOrders demoOrders (some 3)) "Wings" "Fries" : ℚ) /
      (totalOccurrence (sampleOrders demoOrders (some 3)) "Wings" : ℚ) :=
  claim_C1.1 demoOrders (some 3) "Wings" "Fries"
    (affinity demoSample "Wings" "Fries") demo_entry_mem_WF

/-- C2: every affinity stored by the builder lies in the closed interval
    0 to 1, and no self-pair (A,A) is present in the matrix. -/
theorem claim_C2 :
    (∀ (orders : List Order) (sn : Option Nat) (a b : Item) (q : ℚ),
      ((a, b), q) ∈ build_normalized_comatrix orders sn → a ≠ b → 0 ≤ q ∧ q ≤ 1) ∧
    (∀ (orders : List Order) (sn : Option Nat) (a : Item) (q : ℚ),
      ((a, a), q) ∉ build_normalized_comatrix orders sn) := by
  constructor
  · intro orders sn a b q h _
    obtain ⟨-, -, hq⟩ := mem_build h
    subst hq
    exact ⟨affinity_nonneg _ _ _, affinity_le_one _ _ _⟩
  · intro orders sn a q h
    exact (mem_build h).1 rfl

/-- Witness for C2: the bounds instantiated at the concrete scenario
    entry (Wings, Fries), with both hypotheses discharged. -/
theorem claim_C2_witness :
    0 ≤ affinity (sampleOrders demoOrders (some 3)) "Wings" "Fries" ∧
      affinity (sampleOrders demoOrders (some 3)) "Wings" "Fries" ≤ 1 :=
  claim_C2.1 demoOrders (some 3) "Wings" "Fries"
    (affinity (sampleOrders demoOrders (some 3)) "Wings" "Fries")
    demo_entry_mem_WF (by decide)

/-- C3: for every cart of size 1 to 3 drawn from the catalog the Scorer
    returns at most 3 recommendations, none of them equals a cart item,
    and the ranks assigned by the rendering loop form the contiguous
    sequence 1, 2, ..., starting at 1. -/
theorem claim_C3 :
    ∀ (cart : List Item) (co : CoMatrix) (it : TypeTable) (tbt : TopByType)
      (ift : FeatTable),
      1 ≤ cart.length → cart.length ≤ 3 →
      (∀ x ∈ cart, x ∈ it.map Prod.fst) →
      (enhanced_recommend cart co it tbt ift).length ≤ 3 ∧
      (∀ p ∈ enhanced_recommend cart co it tbt ift, p.1 ∉ cart) ∧
      (assignRanks (enhanced_recommend cart co it tbt ift)).map Prod.fst =
        List.range' 1 (enhanced_recommend cart co it tbt ift).length := by
  intro cart co it tbt ift _ _ _
  exact ⟨enhanced_recommend_length_le cart co it tbt ift,
    enhanced_recommend_not_mem_cart cart co it tbt ift, assignRanks_fst _⟩

/-- Witness for C3: instantiated at the singleton cart Wings over the
    scenario artifacts; all three hypotheses discharged by computation. -/
theorem claim_C3_witness :
    (enhanced_recommend ["Wings"] demoCo demoItemType demoTop demoFeat).length ≤ 3 :=
  (claim_C3 ["Wings"] demoCo demoItemType demoTop demoFeat
    (by decide) (by decide) (by decide)).1

/-- C4: a size-0 cart yields an empty recommendation list; whenever the
    Cart Normalizer drops every supplied item the downstream scoring also
    returns the empty list; in particular the cart [NonexistentItem] is
    emptied by the Normalizer and the Scorer returns nothing.  All the
    functions involved are total, so no case can raise. -/
theorem claim_C4 :
    (∀ (co : CoMatrix) (it : TypeTable) (tbt : TopByType) (ift : FeatTable),
      enhanced_recommend [] co it tbt ift = []) ∧
    (∀ (sel kil : List String) (lto : List (String × String)) (co : CoMatrix)
      (it : TypeTable) (tbt : TopByType) (ift : FeatTable),
      normalize_user_items sel kil lto = [] →
      enhanced_recommend (normalize_user_items sel kil lto) co it tbt ift = []) ∧
    normalize_user_items ["NonexistentItem"] demoKil demoLto = [] ∧
    enhanced_recommend (normalize_user_items ["NonexistentItem"] demoKil demoLto)
      demoCo demoItemType demoTop demoFeat = [] := by
  refine ⟨fun co it tbt ift => rfl, ?_, by decide, rfl⟩
  intro sel kil lto co it tbt ift h
  rw [h]
  rfl

/-- Witness for C4: the normalizer-empties-the-cart conjunct applied to
    the concrete unknown item, hypothesis discharged by computation. -/
theorem claim_C4_witness :
    enhanced_recommend (normalize_user_items ["NonexistentItem"] demoKil demoLto)
      demoCo demoItemType demoTop demoFeat = [] :=
  claim_C4.2.1 ["NonexistentItem"] demoKil demoLto demoCo demoItemType demoTop demoFeat
    claim_C4.2.2.1

/-- C5: the calling layer caps the selection at 3 entries before the
    Normalizer runs: the capped list never has more than 3 entries, when
    more than 3 items are selected exactly the first 3 are kept, and the
    interactive flow hands the Normalizer exactly the capped list. -/
theorem claim_C5 :
    ∀ (selected : List String),
      (capSelection selected).length ≤ 3 ∧
      (3 < selected.length → capSelection selected = selected.take 3) ∧
      (∀ (kil : List String) (lto : List (String × String)),
        menuFlowCart selected kil lto =
          normalize_user_items (capSelection selected) kil lto) := by
  intro selected
  refine ⟨?_, ?_, fun kil lto => rfl⟩
  · unfold capSelection
    split
    · rw [List.length_take]
      exact min_le_left _ _
    · omega
  · intro h
    unfold capSelection
    rw [if_pos h]

/-- Witness for C5: the over-cap branch at a concrete 4-item selection. -/
theorem claim_C5_witness :
    capSelection ["a", "b", "c", "d"] = ["a", "b", "c", "d"].take 3 :=
  (claim_C5 ["a", "b", "c", "d"]).2.1 (by decide)

/-- C6: building the affinity matrix twice from the same order set and
    the same sample bound yields identical results (the modelled builder,
    with its deterministic sampling, is a pure function of its inputs). -/
theorem claim_C6 :
    ∀ (orders₁ orders₂ : List Order) (sn₁ sn₂ : Option Nat),
      orders₁ = orders₂ → sn₁ = sn₂ →
      build_normalized_comatrix orders₁ sn₁ = build_normalized_comatrix orders₂ sn₂ := by
  intro o₁ o₂ s₁ s₂ h₁ h₂
  rw [h₁, h₂]

/-- Witness for C6: two builds over the scenario inputs coincide. -/
theorem claim_C6_witness :
    build_normalized_comatrix demoOrders (some 3) =
      build_normalized_comatrix demoOrders (some 3) :=
  claim_C6 demoOrders demoOrders (some 3) (some 3) rfl rfl

/-- C7: the Batch Evaluator processes every row of the test table — the
    output has one entry per input row, located at the same index — and a
    row whose cart normalizes to nothing still yields an output entry,
    with an empty recommendation list and zero recall credit, instead of
    aborting the batch. -/
theorem claim_C7 :
    ∀ (rows : List BatchRow) (co : CoMatrix) (it : TypeTable) (tbt : TopByType)
      (ift : FeatTable) (kil : List String) (lto : List (String × String)),
      (batch_predict rows co it tbt ift kil lto).length = rows.length ∧
      (∀ i : Nat, (batch_predict rows co it tbt ift kil lto)[i]? =
        (rows[i]?).map (evalRow co it tbt ift kil lto)) ∧
      (∀ row : BatchRow, normalize_user_items row.cart kil lto = [] →
        (evalRow co it tbt ift kil lto row).recs = [] ∧
        rowCredit (evalRow co it tbt ift kil lto row) = 0) := by
  intro rows co it tbt ift kil lto
  refine ⟨by simp [batch_predict], ?_, ?_⟩
  · intro i
    simp [batch_predict, List.getElem?_map]
  · intro row h
    have hhits : (evalRow co it tbt ift kil lto row).hits =
        row.truth.map (fun _ => false) := by
      simp [evalRow, h, enhanced_recommend, List.contains]
    refine ⟨by simp [evalRow, h, enhanced_recommend], ?_⟩
    have hcount : (row.truth.map (fun _ => false)).count true = 0 := by
      rw [List.count_eq_zero]
      intro hmem
      rw [List.mem_map] at hmem
      obtain ⟨x, -, hx⟩ := hmem
      cases hx
    unfold rowCredit
    rw [hhits]
    split
    · rfl
    · rw [hcount]
      simp

/-- Witness for C7: a concrete row whose cart item is unknown to the
    catalog contributes zero credit; hypothesis discharged by computing
    the normalizer on it. -/
theorem claim_C7_witness :
    rowCredit (evalRow demoCo demoItemType demoTop demoFeat demoKil demoLto
      (BatchRow.mk ["zzz"] ["Fries"])) = 0 :=
  ((claim_C7 [BatchRow.mk ["zzz"] ["Fries"]] demoCo demoItemType demoTop demoFeat
    demoKil demoLto).2.2 (BatchRow.mk ["zzz"] ["Fries"]) (by decide)).2

/-- C8: icon_for_item is total and deterministic, is case-insensitive
    (lowering the name first changes nothing), and follows the fixed
    priority order wing, fries/fry, dip/sauce/ranch, burger/sandwich,
    corn, drink/cola/juice, generic dish default; a name containing both
    wing and fries yields the wing icon. -/
theorem claim_C8 :
    (∀ name : String,
      icon_for_item name = icon_for_item (strLower name) ∧
      (containsSub (strLower name) "wing" = true → icon_for_item name = "🍗") ∧
      (containsSub (strLower name) "wing" = false →
        (containsSub (strLower name) "fries" || containsSub (strLower name) "fry") = true →
        icon_for_item name = "🍟") ∧
      (containsSub (strLower name) "wing" = false →
        (containsSub (strLower name) "fries" || containsSub (strLower name) "fry") = false →
        (containsSub (strLower name) "dip" || containsSub (strLower name) "sauce" ||
          containsSub (strLower name) "ranch") = true →
        icon_for_item name = "🥣") ∧
      (containsSub (strLower name) "wing" = false →
        (containsSub (strLower name) "fries" || containsSub (strLower name) "fry") = false →
        (containsSub (strLower name) "dip" || containsSub (strLower name) "sauce" ||
          containsSub (strLower name) "ranch") = false →
        (containsSub (strLower name) "burger" ||
          containsSub (strLower name) "sandwich") = true →
        icon_for_item name = "🍔") ∧
      (containsSub (strLower name) "wing" = false →
        (containsSub (strLower name) "fries" || containsSub (strLower name) "fry") = false →
        (containsSub (strLower name) "dip" || containsSub (strLower name) "sauce" ||
          containsSub (strLower name) "ranch") = false →
        (containsSub (strLower name) "burger" ||
          containsSub (strLower name) "sandwich") = false →
        containsSub (strLower name) "corn" = true →
        icon_for_item name = "🌽") ∧
      (containsSub (strLower name) "wing" = false →
        (containsSub (strLower name) "fries" || containsSub (strLower name) "fry") = false →
        (containsSub (strLower name) "dip" || containsSub (strLower name) "sauce" ||
          containsSub (strLower name) "ranch") = false →
        (containsSub (strLower name) "burger" ||
          containsSub (strLower name) "sandwich") = false →
        containsSub (strLower name) "corn" = false →
        (containsSub (strLower name) "drink" || containsSub (strLower name) "cola" ||
          containsSub (strLower name) "juice") = true →
        icon_for_item name = "🥤") ∧
      (containsSub (strLower name) "wing" = false →
        (containsSub (strLower name) "fries" || containsSub (strLower name) "fry") = false →
        (containsSub (strLower name) "dip" || containsSub (strLower name) "sauce" ||
          containsSub (strLower name) "ranch") = false →
        (containsSub (strLower name) "burger" ||
          containsSub (strLower name) "sandwich") = false →
        containsSub (strLower name) "corn" = false →
        (containsSub (strLower name) "drink" || containsSub (strLower name) "cola" ||
          containsSub (strLower name) "juice") = false →
        icon_for_item name = "🍽️")) ∧
    icon_for_item "Wings N Fries" = "🍗" := by
  refine ⟨?_, by decide⟩
  intro name
  refine ⟨?_, ?_, ?_, ?_, ?_, ?_, ?_, ?_⟩
  · unfold icon_for_item
    rw [strLower_idem]
  · intro h1
    simp [icon_for_item, iconCore, h1]
  · intro h1 h2
    simp [icon_for_item, iconCore, h1, h2]
  · intro h1 h2 h3
    simp [icon_for_item, iconCore, h1, h2, h3]
  · intro h1 h2 h3 h4
    simp [icon_for_item, iconCore, h1, h2, h3, h4]
  · intro h1 h2 h3 h4 h5
    simp [icon_for_item, iconCore, h1, h2, h3, h4, h5]
  · intro h1 h2 h3 h4 h5 h6
    simp [icon_for_item, iconCore, h1, h2, h3, h4, h5, h6]
  · intro h1 h2 h3 h4 h5 h6
    simp [icon_for_item, iconCore, h1, h2, h3, h4, h5, h6]

/-- Witness for C8: the wing branch at a concrete mixed-case name. -/
theorem claim_C8_witness : icon_for_item "Buffalo Wings" = "🍗" :=
  (claim_C8.1 "Buffalo Wings").2.1 (by decide)

/-- C9: the rendering loop of menu_reco_page indexes a fixed array of 3
    columns at rank - 1; that indexing is in bounds for every produced
    rank exactly when the scorer returns at most 3 recommendations — and
    the modelled enhanced_recommend always does. -/
theorem claim_C9 :
    (∀ recs : List (Item × ℚ),
      ((∀ idx : Nat, 1 ≤ idx → idx ≤ recs.length → idx - 1 < recoColumns) ↔
        recs.length ≤ 3)) ∧
    (∀ (cart : List Item) (co : CoMatrix) (it : TypeTable) (tbt : TopByType)
      (ift : FeatTable), (enhanced_recommend cart co it tbt ift).length ≤ 3) := by
  constructor
  · intro recs
    constructor
    · intro h
      rcases Nat.eq_zero_or_pos recs.length with h0 | h0
      · omega
      · have hlast := h recs.length h0 le_rfl
        simp only [recoColumns] at hlast
        omega
    · intro h idx h1 h2
      simp only [recoColumns]
      omega
  · intro cart co it tbt ift
    exact enhanced_recommend_length_le cart co it tbt ift

/-- Witness for C9: the scorer bound at a concrete invocation. -/
theorem claim_C9_witness :
    (enhanced_recommend ["Fries"] demoCo demoItemType demoTop demoFeat).length ≤ 3 :=
  claim_C9.2 ["Fries"] demoCo demoItemType demoTop demoFeat

/-- C10: topbar_badges shows exactly the first min(limit, length) items
    in input order — its badge list maps over items.take limit — and it
    emits no markup at all when that truncated list is empty. -/
theorem claim_C10 :
    ∀ (items : List String) (limit : Nat),
      (items.take limit).length = min limit items.length ∧
      (items.take limit = [] → topbar_badges items limit = []) ∧
      (items.take limit ≠ [] →
        topbar_badges items limit =
          "<div>" :: ((items.take limit).map badgeMarkup ++ ["</div>"])) := by
  intro items limit
  refine ⟨List.length_take limit items, ?_, ?_⟩
  · intro h
    simp [topbar_badges, h]
  · intro h
    cases htl : items.take limit with
    | nil => exact absurd htl h
    | cons x xs =>
      unfold topbar_badges
      rw [htl]
      rfl

/-- Witness for C10: the nonempty branch at a concrete item list. -/
theorem claim_C10_witness :
    topbar_badges ["Fries"] 3 =
      "<div>" :: ((["Fries"].take 3).map badgeMarkup ++ ["</div>"]) :=
  (claim_C10 ["Fries"] 3).2.2 (by decide)

end SmartCart
